import Mathlib

set_option maxHeartbeats 1000000

/-!
Verification development for the acceleration-structure construction and
GPU-resource lifecycle core of the ash_rt renderer (src/main.rs).

Machine integers are modelled as `Nat`, with an explicit `% 2 ^ 32` wherever a
Rust `u32` operation can wrap. The 3x4 instance transforms are carried
verbatim (the code never performs arithmetic on them), with each source float
literal represented by the rational it denotes.
-/

/-- Packed geometry-instance record (src/main.rs, `struct GeometryInstance`):
a 3x4 row-major transform of 12 floats, a 32-bit word packing a 24-bit
instance id with an 8-bit visibility mask, a 32-bit word packing a 24-bit
geometry offset with an 8-bit flags byte, and a 64-bit opaque handle to a
bottom-level acceleration structure. -/
structure GeometryInstance where
  transform : List ℚ
  instance_id_and_mask : Nat
  instance_offset_and_flags : Nat
  acceleration_handle : Nat
deriving Repr, DecidableEq

/-- Setter `GeometryInstance::set_id`: masks the id to its low 24 bits and ORs
it into the id/mask word. -/
def GeometryInstance.set_id (g : GeometryInstance) (id : Nat) : GeometryInstance :=
  { g with instance_id_and_mask := g.instance_id_and_mask ||| (id &&& 0xffffff) }

/-- Setter `GeometryInstance::set_mask`: widens the `u8` mask to `u32` and ORs
`mask << 24` into the id/mask word (`% 2 ^ 32` models the `u32` shift; it is
the identity whenever the argument fits in 8 bits, as the `u8` type ensures). -/
def GeometryInstance.set_mask (g : GeometryInstance) (mask : Nat) : GeometryInstance :=
  { g with instance_id_and_mask := g.instance_id_and_mask ||| ((mask <<< 24) % 2 ^ 32) }

/-- Setter `GeometryInstance::set_offset`: masks the offset to its low 24 bits
and ORs it into the offset/flags word. -/
def GeometryInstance.set_offset (g : GeometryInstance) (offset : Nat) : GeometryInstance :=
  { g with instance_offset_and_flags := g.instance_offset_and_flags ||| (offset &&& 0xffffff) }

/-- Setter `GeometryInstance::set_flags`: ORs `flags.as_raw() << 24` into the
offset/flags word; the shift is a `u32` shift, hence the `% 2 ^ 32`. -/
def GeometryInstance.set_flags (g : GeometryInstance) (flagsRaw : Nat) : GeometryInstance :=
  { g with instance_offset_and_flags := g.instance_offset_and_flags ||| ((flagsRaw <<< 24) % 2 ^ 32) }

/-- Constructor `GeometryInstance::new`: starts from zeroed packed words, then
applies `set_id`, `set_mask`, `set_offset`, `set_flags` in that order; the
transform and the acceleration handle are stored verbatim. -/
def GeometryInstance.new (transform : List ℚ)
    (id mask offset flagsRaw acceleration_handle : Nat) : GeometryInstance :=
  ((((GeometryInstance.mk transform 0 0 acceleration_handle).set_id id).set_mask
      mask).set_offset offset).set_flags flagsRaw

/-- Low 24 bits of the packed id/mask word: the instance-id field. -/
def GeometryInstance.id_field (g : GeometryInstance) : Nat :=
  g.instance_id_and_mask &&& 0xffffff

/-- Low 24 bits of the packed offset/flags word: the geometry-offset field. -/
def GeometryInstance.offset_field (g : GeometryInstance) : Nat :=
  g.instance_offset_and_flags &&& 0xffffff

/-- Raw value of `vk::GeometryInstanceFlagsNV::TRIANGLE_CULL_DISABLE_NV`
(Vulkan bit `VK_GEOMETRY_INSTANCE_TRIANGLE_FACING_CULL_DISABLE_BIT`). -/
def TRIANGLE_CULL_DISABLE_NV : Nat := 0x1

/-- Transform of the first hard-coded scene entry (`transform_0`). -/
def transform_0 : List ℚ := [1, 0, 0, -3/2, 0, 1, 0, 11/10, 0, 0, 1, 0]

/-- Transform of the second hard-coded scene entry (`transform_1`). -/
def transform_1 : List ℚ := [1, 0, 0, 0, 0, 1, 0, -11/10, 0, 0, 1, 0]

/-- Transform of the third hard-coded scene entry (`transform_2`). -/
def transform_2 : List ℚ := [1, 0, 0, 3/2, 0, 1, 0, 11/10, 0, 0, 1, 0]

/-- The `instances` vector built in `create_acceleration_structures`: three
records, ids 0, 1, 2, mask `0xff`, offset 0, triangle-cull-disable flags, all
referencing the one bottom-level handle. -/
def sceneInstances (bottom_as_handle : Nat) : List GeometryInstance :=
  [ GeometryInstance.new transform_0 0 0xff 0 TRIANGLE_CULL_DISABLE_NV bottom_as_handle,
    GeometryInstance.new transform_1 1 0xff 0 TRIANGLE_CULL_DISABLE_NV bottom_as_handle,
    GeometryInstance.new transform_2 2 0xff 0 TRIANGLE_CULL_DISABLE_NV bottom_as_handle ]

/-- Byte size of the `#[repr(C)]` `GeometryInstance` record: 12 `f32`s, two
`u32` words, one `u64` handle. -/
def geometryInstanceByteSize : Nat := 12 * 4 + 4 + 4 + 8

/-- Size given to the instance `BufferResource`:
`size_of::<GeometryInstance>() * instances.len()`. -/
def instanceBufferSize (bottom_as_handle : Nat) : Nat :=
  geometryInstanceByteSize * (sceneInstances bottom_as_handle).length

/-- Masking with `0xffffff` keeps exactly the low 24 bits. -/
theorem land_mask24_eq_mod (a : Nat) : a &&& 0xffffff = a % 2 ^ 24 := by
  apply Nat.eq_of_testBit_eq
  intro i
  rw [show (0xffffff : Nat) = 2 ^ 24 - 1 by norm_num]
  simp only [Nat.testBit_and, Nat.testBit_two_pow_sub_one, Nat.testBit_mod_two_pow]
  exact Bool.and_comm _ _

/-- Bits shifted up by 24 (in a `u32` word) never reach the low 24 bits:
ORing them in does not change the low-24-bit field. -/
theorem lor_shifted_land_mask24 (a x : Nat) :
    ((a &&& 0xffffff) ||| ((x <<< 24) % 2 ^ 32)) &&& 0xffffff = a &&& 0xffffff := by
  apply Nat.eq_of_testBit_eq
  intro i
  rw [show (0xffffff : Nat) = 2 ^ 24 - 1 by norm_num]
  simp only [Nat.testBit_and, Nat.testBit_or, Nat.testBit_mod_two_pow,
    Nat.testBit_shiftLeft, Nat.testBit_two_pow_sub_one]
  rcases Nat.lt_or_ge i 24 with hlt | hge
  · have hnge : ¬ (i ≥ 24) := by omega
    simp [hlt, hnge]
  · have hnlt : ¬ (i < 24) := by omega
    simp [hnlt]

/-- The 8-bit byte shifted to bits 24..31 is bit-disjoint from a 24-bit field. -/
theorem shiftLeft24_land_field24 (x y : Nat) :
    (x <<< 24) &&& (y &&& 0xffffff) = 0 := by
  apply Nat.eq_of_testBit_eq
  intro i
  rw [show (0xffffff : Nat) = 2 ^ 24 - 1 by norm_num]
  simp only [Nat.testBit_and, Nat.testBit_shiftLeft, Nat.testBit_two_pow_sub_one,
    Nat.zero_testBit]
  rcases Nat.lt_or_ge i 24 with hlt | hge
  · have hnge : ¬ (i ≥ 24) := by omega
    simp [hnge]
  · have hnlt : ¬ (i < 24) := by omega
    simp [hnlt]

/-- The `u32`-wrapped byte shifted to bits 24..31 is bit-disjoint from a
24-bit field. -/
theorem shiftLeft24_mod_land_field24 (x y : Nat) :
    ((x <<< 24) % 2 ^ 32) &&& (y &&& 0xffffff) = 0 := by
  apply Nat.eq_of_testBit_eq
  intro i
  rw [show (0xffffff : Nat) = 2 ^ 24 - 1 by norm_num]
  simp only [Nat.testBit_and, Nat.testBit_mod_two_pow, Nat.testBit_shiftLeft,
    Nat.testBit_two_pow_sub_one, Nat.zero_testBit]
  rcases Nat.lt_or_ge i 24 with hlt | hge
  · have hnge : ¬ (i ≥ 24) := by omega
    simp [hnge]
  · have hnlt : ¬ (i < 24) := by omega
    simp [hnlt]

/-- Unfolding of the packed id/mask word produced by `GeometryInstance::new`. -/
theorem new_instance_id_and_mask (t : List ℚ) (id mask offset flagsRaw h : Nat) :
    (GeometryInstance.new t id mask offset flagsRaw h).instance_id_and_mask =
      (id &&& 0xffffff) ||| ((mask <<< 24) % 2 ^ 32) := by
  simp [GeometryInstance.new, GeometryInstance.set_id, GeometryInstance.set_mask,
    GeometryInstance.set_offset, GeometryInstance.set_flags]

/-- Unfolding of the packed offset/flags word produced by
`GeometryInstance::new`. -/
theorem new_instance_offset_and_flags (t : List ℚ) (id mask offset flagsRaw h : Nat) :
    (GeometryInstance.new t id mask offset flagsRaw h).instance_offset_and_flags =
      (offset &&& 0xffffff) ||| ((flagsRaw <<< 24) % 2 ^ 32) := by
  simp [GeometryInstance.new, GeometryInstance.set_id, GeometryInstance.set_mask,
    GeometryInstance.set_offset, GeometryInstance.set_flags]

/-- C6: for ids and offsets larger than 2^24 - 1, the encoder keeps only the
low 24 bits of the field (silent masking, not rejection); in particular the id
field of the encoding of id = 0x01FFFFFF equals the id field of the encoding
of id = 0x00FFFFFF. -/
theorem c6_id_offset_masked_to_24_bits (t : List ℚ) (id mask offset flagsRaw h : Nat)
    (hid : 2 ^ 24 - 1 < id) (hoff : 2 ^ 24 - 1 < offset) :
    (GeometryInstance.new t id mask offset flagsRaw h).id_field = id % 2 ^ 24 ∧
    (GeometryInstance.new t id mask offset flagsRaw h).offset_field = offset % 2 ^ 24 ∧
    (GeometryInstance.new t 0x01ffffff mask offset flagsRaw h).id_field =
      (GeometryInstance.new t 0x00ffffff mask offset flagsRaw h).id_field := by
  refine ⟨?_, ?_, ?_⟩
  · rw [GeometryInstance.id_field, new_instance_id_and_mask,
      lor_shifted_land_mask24, land_mask24_eq_mod]
  · rw [GeometryInstance.offset_field, new_instance_offset_and_flags,
      lor_shifted_land_mask24, land_mask24_eq_mod]
  · rw [GeometryInstance.id_field, GeometryInstance.id_field,
      new_instance_id_and_mask, new_instance_id_and_mask,
      lor_shifted_land_mask24, lor_shifted_land_mask24]
    decide

/-- Witness for C6 at id = offset = 0x01FFFFFF, mask = 0xff, flags = 1,
handle = 7. -/
theorem c6_id_offset_masked_to_24_bits_witness :
    (GeometryInstance.new transform_0 0x01ffffff 0xff 0x01ffffff 1 7).id_field =
      0x01ffffff % 2 ^ 24 ∧
    (GeometryInstance.new transform_0 0x01ffffff 0xff 0x01ffffff 1 7).offset_field =
      0x01ffffff % 2 ^ 24 ∧
    (GeometryInstance.new transform_0 0x01ffffff 0xff 0x01ffffff 1 7).id_field =
      (GeometryInstance.new transform_0 0x00ffffff 0xff 0x01ffffff 1 7).id_field :=
  c6_id_offset_masked_to_24_bits transform_0 0x01ffffff 0xff 0x01ffffff 1 7
    (by norm_num) (by norm_num)

/-- C7: the instance array uploaded to the instance buffer holds exactly three
fixed-size records sharing the bottom-level handle, with transforms T0, T1, T2
in order. -/
theorem c7_instance_buffer_contents (bottom_as_handle : Nat) :
    (sceneInstances bottom_as_handle).length = 3 ∧
    (sceneInstances bottom_as_handle).map GeometryInstance.acceleration_handle =
      [bottom_as_handle, bottom_as_handle, bottom_as_handle] ∧
    (sceneInstances bottom_as_handle).map GeometryInstance.transform =
      [transform_0, transform_1, transform_2] ∧
    instanceBufferSize bottom_as_handle = 3 * 64 :=
  ⟨rfl, rfl, rfl, rfl⟩

/-- Witness for C7 at a concrete bottom-level handle. -/
theorem c7_instance_buffer_contents_witness :
    (sceneInstances 0xdeadbeef).length = 3 ∧
    (sceneInstances 0xdeadbeef).map GeometryInstance.acceleration_handle =
      [0xdeadbeef, 0xdeadbeef, 0xdeadbeef] ∧
    (sceneInstances 0xdeadbeef).map GeometryInstance.transform =
      [transform_0, transform_1, transform_2] ∧
    instanceBufferSize 0xdeadbeef = 3 * 64 :=
  c7_instance_buffer_contents 0xdeadbeef

/-- C10: `GeometryInstance::new` packs the fields exactly as claimed, stores
transform and handle verbatim, and the 8-bit high byte never overlaps the
24-bit low field. -/
theorem c10_new_packs_fields_disjointly (t : List ℚ)
    (id mask offset flagsRaw h : Nat) (hmask : mask < 2 ^ 8) :
    (GeometryInstance.new t id mask offset flagsRaw h).instance_id_and_mask =
      ((mask <<< 24) ||| (id &&& 0x00ffffff)) ∧
    (GeometryInstance.new t id mask offset flagsRaw h).instance_offset_and_flags =
      (((flagsRaw <<< 24) % 2 ^ 32) ||| (offset &&& 0x00ffffff)) ∧
    (GeometryInstance.new t id mask offset flagsRaw h).transform = t ∧
    (GeometryInstance.new t id mask offset flagsRaw h).acceleration_handle = h ∧
    (mask <<< 24) &&& (id &&& 0x00ffffff) = 0 ∧
    ((flagsRaw <<< 24) % 2 ^ 32) &&& (offset &&& 0x00ffffff) = 0 := by
  have hm : mask <<< 24 < 2 ^ 32 := by
    rw [Nat.shiftLeft_eq]
    calc mask * 2 ^ 24 < 2 ^ 8 * 2 ^ 24 := by
          exact Nat.mul_lt_mul_of_lt_of_le hmask (Nat.le_refl _) (by norm_num)
      _ = 2 ^ 32 := by norm_num
  refine ⟨?_, ?_, rfl, rfl, shiftLeft24_land_field24 mask id,
    shiftLeft24_mod_land_field24 flagsRaw offset⟩
  · rw [new_instance_id_and_mask, Nat.mod_eq_of_lt hm, Nat.lor_comm]
  · rw [new_instance_offset_and_flags, Nat.lor_comm]

/-- Witness for C10 at id = 3, mask = 0xff, offset = 5, flags = 1, handle = 7. -/
theorem c10_new_packs_fields_disjointly_witness :
    (GeometryInstance.new transform_1 3 0xff 5 1 7).instance_id_and_mask =
      ((0xff <<< 24) ||| (3 &&& 0x00ffffff)) ∧
    (GeometryInstance.new transform_1 3 0xff 5 1 7).instance_offset_and_flags =
      (((1 <<< 24) % 2 ^ 32) ||| (5 &&& 0x00ffffff)) ∧
    (GeometryInstance.new transform_1 3 0xff 5 1 7).transform = transform_1 ∧
    (GeometryInstance.new transform_1 3 0xff 5 1 7).acceleration_handle = 7 ∧
    (0xff <<< 24) &&& ((3 : Nat) &&& 0x00ffffff) = 0 ∧
    ((1 <<< 24) % 2 ^ 32) &&& ((5 : Nat) &&& 0x00ffffff) = 0 :=
  c10_new_packs_fields_disjointly transform_1 3 0xff 5 1 7 (by norm_num)

/-- Vulkan pipeline-stage bit `ACCELERATION_STRUCTURE_BUILD_NV`. -/
def ACCELERATION_STRUCTURE_BUILD_NV : Nat := 0x02000000

/-- Vulkan access bit `ACCELERATION_STRUCTURE_READ_NV`. -/
def ACCELERATION_STRUCTURE_READ_NV : Nat := 0x00200000

/-- Vulkan access bit `ACCELERATION_STRUCTURE_WRITE_NV`. -/
def ACCELERATION_STRUCTURE_WRITE_NV : Nat := 0x00400000

/-- The two acceleration-structure levels of the scene. -/
inductive ASLevel
  | bottom
  | top
deriving DecidableEq, Repr

/-- Argument record of `vk::MemoryBarrier` as built in
`create_acceleration_structures`. -/
structure MemoryBarrier where
  src_access_mask : Nat
  dst_access_mask : Nat
deriving DecidableEq, Repr

/-- Commands recorded into the one-shot build command buffer. -/
inductive RecordedCmd
  | buildAccelerationStructure (level : ASLevel)
  | pipelineBarrier (srcStage : Nat) (dstStage : Nat) (barrier : MemoryBarrier)
deriving DecidableEq, Repr

/-- The `memory_barrier` value of `create_acceleration_structures`: read and
write acceleration-structure access on both sides. -/
def buildMemoryBarrier : MemoryBarrier :=
  { src_access_mask :=
      ACCELERATION_STRUCTURE_WRITE_NV ||| ACCELERATION_STRUCTURE_READ_NV,
    dst_access_mask :=
      ACCELERATION_STRUCTURE_WRITE_NV ||| ACCELERATION_STRUCTURE_READ_NV }

/-- The command sequence recorded between `begin_command_buffer` and
`end_command_buffer` in `create_acceleration_structures`: bottom-level build,
barrier, top-level build, barrier. -/
def buildCommands : List RecordedCmd :=
  [ RecordedCmd.buildAccelerationStructure ASLevel.bottom,
    RecordedCmd.pipelineBarrier ACCELERATION_STRUCTURE_BUILD_NV
      ACCELERATION_STRUCTURE_BUILD_NV buildMemoryBarrier,
    RecordedCmd.buildAccelerationStructure ASLevel.top,
    RecordedCmd.pipelineBarrier ACCELERATION_STRUCTURE_BUILD_NV
      ACCELERATION_STRUCTURE_BUILD_NV buildMemoryBarrier ]

/-- C1: in the single build command buffer, the bottom-level build is recorded
exactly once, at position 0; position 1 holds a memory barrier whose source
and destination stages are acceleration-structure-build and whose access masks
are acceleration-structure read and write on both sides; and the top-level
build is recorded exactly once, at position 2 — strictly after that barrier,
which in turn is strictly after the bottom-level build. -/
theorem c1_bottom_build_barrier_top_build_order :
    buildCommands.indexOf (RecordedCmd.buildAccelerationStructure ASLevel.bottom) = 0 ∧
    buildCommands.count (RecordedCmd.buildAccelerationStructure ASLevel.bottom) = 1 ∧
    buildCommands[1]? = some (RecordedCmd.pipelineBarrier
      ACCELERATION_STRUCTURE_BUILD_NV ACCELERATION_STRUCTURE_BUILD_NV
      buildMemoryBarrier) ∧
    buildMemoryBarrier.src_access_mask =
      (ACCELERATION_STRUCTURE_WRITE_NV ||| ACCELERATION_STRUCTURE_READ_NV) ∧
    buildMemoryBarrier.dst_access_mask =
      (ACCELERATION_STRUCTURE_WRITE_NV ||| ACCELERATION_STRUCTURE_READ_NV) ∧
    buildCommands.indexOf (RecordedCmd.buildAccelerationStructure ASLevel.top) = 2 ∧
    buildCommands.count (RecordedCmd.buildAccelerationStructure ASLevel.top) = 1 := by
  decide

/-- Vulkan shader-stage bit `RAYGEN_NV`. -/
def RAYGEN_NV : Nat := 0x100

/-- Vulkan shader-stage bit `CLOSEST_HIT_NV`. -/
def CLOSEST_HIT_NV : Nat := 0x400

/-- Vulkan shader-stage bit `MISS_NV`. -/
def MISS_NV : Nat := 0x800

/-- Vulkan descriptor-binding bit `VARIABLE_DESCRIPTOR_COUNT`. -/
def VARIABLE_DESCRIPTOR_COUNT : Nat := 0x8

/-- Descriptor types used by the ray-tracing descriptor set. -/
inductive DescriptorType
  | accelerationStructureNV
  | storageImage
  | uniformBuffer
deriving DecidableEq, Repr

/-- One entry of `vk::DescriptorSetLayoutBinding` as filled in
`create_pipeline` (fields not set default to zero). -/
structure DescriptorSetLayoutBinding where
  binding : Nat
  descriptorType : DescriptorType
  descriptorCount : Nat
  stageFlags : Nat
deriving DecidableEq, Repr

/-- The `descriptor_set_layout_bindings` array of `create_pipeline`, verbatim:
the third entry is declared with `binding: 0` and `descriptor_count: 1`. -/
def descriptorSetLayoutBindings : List DescriptorSetLayoutBinding :=
  [ { binding := 0, descriptorType := DescriptorType.accelerationStructureNV,
      descriptorCount := 1, stageFlags := RAYGEN_NV },
    { binding := 1, descriptorType := DescriptorType.storageImage,
      descriptorCount := 1, stageFlags := RAYGEN_NV },
    { binding := 0, descriptorType := DescriptorType.uniformBuffer,
      descriptorCount := 1, stageFlags := CLOSEST_HIT_NV } ]

/-- The `binding_flags` array of `create_pipeline`: only the last entry
carries the variable-descriptor-count bit. -/
def bindingFlags : List Nat := [0, 0, VARIABLE_DESCRIPTOR_COUNT]

/-- Argument record of `vk::DescriptorSetLayoutBindingFlagsCreateInfoEXT` as
built in `create_pipeline`: `p_binding_flags` is set but `binding_count` is
left at its `Default` of 0. -/
structure DescriptorSetLayoutBindingFlagsCreateInfo where
  binding_count : Nat
  p_binding_flags : List Nat
deriving DecidableEq, Repr

/-- The flags create-info value chained onto the layout create-info. -/
def descriptorSetLayoutBindingFlagsCreateInfo : DescriptorSetLayoutBindingFlagsCreateInfo :=
  { binding_count := 0, p_binding_flags := bindingFlags }

/-- Fields of a `vk::WriteDescriptorSet` relevant here. -/
structure WriteDescriptorSet where
  dst_binding : Nat
  descriptorType : DescriptorType
  descriptor_count : Nat
deriving DecidableEq, Repr

/-- The uniform-buffer write of `create_descriptor_set`: destination binding 2
with three buffer descriptors. -/
def bufferWrite : WriteDescriptorSet :=
  { dst_binding := 2, descriptorType := DescriptorType.uniformBuffer,
    descriptor_count := 3 }

/-- The descriptor-pool sizes of `create_descriptor_set`: one acceleration
structure, one storage image, three uniform buffers. -/
def descriptorPoolSizes : List (DescriptorType × Nat) :=
  [ (DescriptorType.accelerationStructureNV, 1),
    (DescriptorType.storageImage, 1),
    (DescriptorType.uniformBuffer, 3) ]

/-- C2: the layout that `create_pipeline` actually declares lists its third
entry with binding index 0 and descriptor count 1 (not binding 2 with count
3), and leaves `binding_count` of the chained flags create-info at 0, while
`create_descriptor_set` writes binding 2 with three uniform-buffer
descriptors from a pool sized for three — the write and the pool contradict
the declared layout. -/
theorem c2_layout_contradicts_descriptor_write :
    descriptorSetLayoutBindings.length = 3 ∧
    descriptorSetLayoutBindings[2]? = some
      { binding := 0, descriptorType := DescriptorType.uniformBuffer,
        descriptorCount := 1, stageFlags := CLOSEST_HIT_NV } ∧
    descriptorSetLayoutBindingFlagsCreateInfo.binding_count = 0 ∧
    bindingFlags[2]? = some VARIABLE_DESCRIPTOR_COUNT ∧
    bufferWrite.dst_binding = 2 ∧
    bufferWrite.descriptor_count = 3 ∧
    descriptorPoolSizes[2]? = some (DescriptorType.uniformBuffer, 3) ∧
    ¬ (∃ b ∈ descriptorSetLayoutBindings, b.binding = 2) := by
  decide

/-- Build-time configuration constant `use_lib` of `create_pipeline`. -/
def use_lib : Bool := false

/-- Build-time configuration constant `use_hlsl` of `create_pipeline`. -/
def use_hlsl : Bool := true

/-- Entry-point names given to the raygen, closest-hit and miss stages in
`create_pipeline`: when `use_lib && use_hlsl` (the single combined library),
the distinct names `rgen_main`, `rchit_main`, `rmiss_main`; otherwise
(separate-stage files), `main` for every stage. -/
def entryPointNames (lib : Bool) (hlsl : Bool) : List String :=
  if lib && hlsl then ["rgen_main", "rchit_main", "rmiss_main"]
  else ["main", "main", "main"]

/-- C3 counterexample: with the single combined library selected, the stages
do not use entry point `main`; they use the three distinct names — and the
separate-files configuration is the one where every stage uses `main`. -/
theorem c3_counterexample_entry_point_convention :
    entryPointNames true true = ["rgen_main", "rchit_main", "rmiss_main"] ∧
    ¬ (∀ s ∈ entryPointNames true true, s = "main") ∧
    entryPointNames false true = ["main", "main", "main"] ∧
    ¬ (entryPointNames false true).Pairwise (fun a b => a ≠ b) := by
  decide

/-- C3 amended: the convention is the reverse of the claim — the combined
HLSL library gives each stage its own distinct entry point name, and the
separate-stage-files configurations give every stage entry point `main`. -/
theorem c3_entry_point_convention :
    entryPointNames true true = ["rgen_main", "rchit_main", "rmiss_main"] ∧
    (entryPointNames true true).Pairwise (fun a b => a ≠ b) ∧
    entryPointNames false true = ["main", "main", "main"] ∧
    entryPointNames false false = ["main", "main", "main"] ∧
    entryPointNames true false = ["main", "main", "main"] ∧
    use_lib = false ∧ use_hlsl = true := by
  decide

/-- Transient buffers owned through `Option<BufferResource>` fields of
`RayTracingApp`. -/
inductive BufId
  | sbt
  | color0
  | color1
  | color2
deriving DecidableEq, Repr

/-- Device memory allocations named by their owner. -/
inductive MemId
  | topAS
  | bottomAS
  | bufMem (b : BufId)
  | imageMem
deriving DecidableEq, Repr

/-- The four shader modules held by `RayTracingApp`. -/
inductive ShaderId
  | rgen
  | chit
  | miss
  | lib
deriving DecidableEq, Repr

/-- Destruction-side device calls issued by `RayTracingApp::release` and by
the `Drop` impls of `BufferResource` and `ImageResource`. -/
inductive DeviceCall
  | waitDeviceIdle
  | destroyAccelerationStructure (level : ASLevel)
  | freeMemory (m : MemId)
  | destroyDescriptorPool
  | destroyBuffer (b : BufId)
  | destroyPipeline
  | destroyPipelineLayout
  | destroyDescriptorSetLayout
  | destroyShaderModule (s : ShaderId)
  | destroyImageView
  | destroyImage
  | destroySampler
deriving DecidableEq, Repr

/-- Calls of `impl Drop for BufferResource`, in source order:
`destroy_buffer` first, then `free_memory`. -/
def bufferDropCalls (b : BufId) : List DeviceCall :=
  [DeviceCall.destroyBuffer b, DeviceCall.freeMemory (MemId.bufMem b)]

/-- Calls of `impl Drop for ImageResource`, in source order:
`destroy_image_view`, `free_memory`, `destroy_image`, `destroy_sampler`. -/
def imageDropCalls : List DeviceCall :=
  [DeviceCall.destroyImageView, DeviceCall.freeMemory MemId.imageMem,
   DeviceCall.destroyImage, DeviceCall.destroySampler]

/-- Ownership state that `release` actually changes: which
`Option<BufferResource>` fields still hold a buffer. The raw Vulkan handle
fields are never nulled by `release`, so they carry no state here. -/
structure RayTracingAppState where
  sbtPresent : Bool
  color0Present : Bool
  color1Present : Bool
  color2Present : Bool
deriving DecidableEq, Repr

/-- State of the app after `initialize` populated every `Option` field. -/
def initializedState : RayTracingAppState :=
  { sbtPresent := true, color0Present := true,
    color1Present := true, color2Present := true }

/-- Device calls issued by one run of `RayTracingApp::release`, in source
order: device-idle wait; top-level structure and its memory; bottom-level
structure and its memory; descriptor pool; drop of the shader-binding-table
and color buffers (only when still present); pipeline; pipeline layout;
descriptor-set layout; the four shader modules. The offscreen target image is
not touched by `release`. -/
def releaseCalls (s : RayTracingAppState) : List DeviceCall :=
  [ DeviceCall.waitDeviceIdle,
    DeviceCall.destroyAccelerationStructure ASLevel.top,
    DeviceCall.freeMemory MemId.topAS,
    DeviceCall.destroyAccelerationStructure ASLevel.bottom,
    DeviceCall.freeMemory MemId.bottomAS,
    DeviceCall.destroyDescriptorPool ]
  ++ (if s.sbtPresent then bufferDropCalls BufId.sbt else [])
  ++ (if s.color0Present then bufferDropCalls BufId.color0 else [])
  ++ (if s.color1Present then bufferDropCalls BufId.color1 else [])
  ++ (if s.color2Present then bufferDropCalls BufId.color2 else [])
  ++ [ DeviceCall.destroyPipeline,
       DeviceCall.destroyPipelineLayout,
       DeviceCall.destroyDescriptorSetLayout,
       DeviceCall.destroyShaderModule ShaderId.rgen,
       DeviceCall.destroyShaderModule ShaderId.chit,
       DeviceCall.destroyShaderModule ShaderId.miss,
       DeviceCall.destroyShaderModule ShaderId.lib ]

/-- State after one run of `release`: every `Option` field has been set to
`None`; nothing else is recorded. -/
def releaseState (_ : RayTracingAppState) : RayTracingAppState :=
  { sbtPresent := false, color0Present := false,
    color1Present := false, color2Present := false }

/-- Device calls issued by calling `release` twice on a fully-initialized
scene. -/
def releaseTwiceCalls : List DeviceCall :=
  releaseCalls initializedState ++ releaseCalls (releaseState initializedState)

/-- Steps of `RayTracingApp::initialize`, in source order. -/
inductive InitStep
  | offscreenTarget
  | accelerationStructures
  | uniformBuffers
  | rtPipeline
  | shaderBindingTable
  | descriptorSet
deriving DecidableEq, Repr

/-- The initialization chain of `RayTracingApp::initialize`. -/
def initializeOrder : List InitStep :=
  [ InitStep.offscreenTarget, InitStep.accelerationStructures,
    InitStep.uniformBuffers, InitStep.rtPipeline,
    InitStep.shaderBindingTable, InitStep.descriptorSet ]

/-- C4 counterexample: `release` is not the exact reverse of initialization —
the offscreen target image is never destroyed by `release` at all, and the
acceleration structures are destroyed before the descriptor pool rather than
after everything else. -/
theorem c4_counterexample_release_not_reverse :
    DeviceCall.destroyImage ∉ releaseCalls initializedState ∧
    (releaseCalls initializedState).indexOf
        (DeviceCall.destroyAccelerationStructure ASLevel.top) <
      (releaseCalls initializedState).indexOf DeviceCall.destroyDescriptorPool := by
  decide

/-- C4 amended: `release` first performs the blocking device-idle wait, then
destroys the top-level structure and its memory, the bottom-level structure
and its memory, the descriptor pool, the shader-binding-table buffer, the
three uniform buffers, the pipeline, the pipeline layout, the descriptor-set
layout and the four shader modules — an order that is not the reverse of the
initialization chain, and that never destroys the offscreen target image. -/
theorem c4_release_actual_order :
    initializeOrder =
      [ InitStep.offscreenTarget, InitStep.accelerationStructures,
        InitStep.uniformBuffers, InitStep.rtPipeline,
        InitStep.shaderBindingTable, InitStep.descriptorSet ] ∧
    releaseCalls initializedState =
      [ DeviceCall.waitDeviceIdle,
        DeviceCall.destroyAccelerationStructure ASLevel.top,
        DeviceCall.freeMemory MemId.topAS,
        DeviceCall.destroyAccelerationStructure ASLevel.bottom,
        DeviceCall.freeMemory MemId.bottomAS,
        DeviceCall.destroyDescriptorPool,
        DeviceCall.destroyBuffer BufId.sbt,
        DeviceCall.freeMemory (MemId.bufMem BufId.sbt),
        DeviceCall.destroyBuffer BufId.color0,
        DeviceCall.freeMemory (MemId.bufMem BufId.color0),
        DeviceCall.destroyBuffer BufId.color1,
        DeviceCall.freeMemory (MemId.bufMem BufId.color1),
        DeviceCall.destroyBuffer BufId.color2,
        DeviceCall.freeMemory (MemId.bufMem BufId.color2),
        DeviceCall.destroyPipeline,
        DeviceCall.destroyPipelineLayout,
        DeviceCall.destroyDescriptorSetLayout,
        DeviceCall.destroyShaderModule ShaderId.rgen,
        DeviceCall.destroyShaderModule ShaderId.chit,
        DeviceCall.destroyShaderModule ShaderId.miss,
        DeviceCall.destroyShaderModule ShaderId.lib ] ∧
    (releaseCalls initializedState).head? = some DeviceCall.waitDeviceIdle := by
  decide

/-- C5 counterexample: across two `release` calls on a fully-initialized
scene, the destroy call for the top-level acceleration structure is issued
twice — the raw handle fields are never nulled, so the second call repeats
every handle destroy. -/
theorem c5_counterexample_double_destroy :
    releaseTwiceCalls.count
      (DeviceCall.destroyAccelerationStructure ASLevel.top) = 2 := by
  decide

/-- C5 amended: across two `release` calls, only the `Option`-held buffer
resources (shader binding table and the three uniform buffers) are freed at
most once — their fields are taken to `None` by the first call — while every
raw-handle destroy (acceleration structures, descriptor pool, pipeline,
layouts, shader modules) is issued once per call, hence twice in total. -/
theorem c5_release_twice_only_buffers_freed_once :
    releaseTwiceCalls.count (DeviceCall.destroyBuffer BufId.sbt) = 1 ∧
    releaseTwiceCalls.count (DeviceCall.destroyBuffer BufId.color0) = 1 ∧
    releaseTwiceCalls.count (DeviceCall.destroyBuffer BufId.color1) = 1 ∧
    releaseTwiceCalls.count (DeviceCall.destroyBuffer BufId.color2) = 1 ∧
    releaseTwiceCalls.count (DeviceCall.freeMemory (MemId.bufMem BufId.sbt)) = 1 ∧
    releaseTwiceCalls.count (DeviceCall.freeMemory (MemId.bufMem BufId.color0)) = 1 ∧
    releaseTwiceCalls.count (DeviceCall.freeMemory (MemId.bufMem BufId.color1)) = 1 ∧
    releaseTwiceCalls.count (DeviceCall.freeMemory (MemId.bufMem BufId.color2)) = 1 ∧
    releaseTwiceCalls.count
      (DeviceCall.destroyAccelerationStructure ASLevel.top) = 2 ∧
    releaseTwiceCalls.count
      (DeviceCall.destroyAccelerationStructure ASLevel.bottom) = 2 ∧
    releaseTwiceCalls.count DeviceCall.destroyDescriptorPool = 2 ∧
    releaseTwiceCalls.count DeviceCall.destroyPipeline = 2 ∧
    releaseTwiceCalls.count DeviceCall.destroyPipelineLayout = 2 ∧
    releaseTwiceCalls.count DeviceCall.destroyDescriptorSetLayout = 2 ∧
    releaseTwiceCalls.count (DeviceCall.destroyShaderModule ShaderId.rgen) = 2 := by
  decide

/-- C9 counterexample: `BufferResource`'s `Drop` destroys the buffer handle
before freeing its memory (not memory first), and `ImageResource`'s `Drop`
destroys the sampler last, after the memory is freed and the image handle is
destroyed (not together with the view, first). -/
theorem c9_counterexample_drop_order :
    (bufferDropCalls BufId.sbt).indexOf (DeviceCall.destroyBuffer BufId.sbt) <
      (bufferDropCalls BufId.sbt).indexOf
        (DeviceCall.freeMemory (MemId.bufMem BufId.sbt)) ∧
    imageDropCalls.indexOf (DeviceCall.freeMemory MemId.imageMem) <
      imageDropCalls.indexOf DeviceCall.destroySampler ∧
    imageDropCalls.indexOf DeviceCall.destroyImage <
      imageDropCalls.indexOf DeviceCall.destroySampler := by
  decide

/-- C9 amended: each per-resource destruction call is issued exactly once per
drop, and the orders are — image: view, then memory, then image handle, then
sampler; buffer: buffer handle, then memory. -/
theorem c9_drop_calls_once_in_source_order :
    imageDropCalls =
      [ DeviceCall.destroyImageView, DeviceCall.freeMemory MemId.imageMem,
        DeviceCall.destroyImage, DeviceCall.destroySampler ] ∧
    bufferDropCalls BufId.sbt =
      [ DeviceCall.destroyBuffer BufId.sbt,
        DeviceCall.freeMemory (MemId.bufMem BufId.sbt) ] ∧
    bufferDropCalls BufId.color0 =
      [ DeviceCall.destroyBuffer BufId.color0,
        DeviceCall.freeMemory (MemId.bufMem BufId.color0) ] ∧
    bufferDropCalls BufId.color1 =
      [ DeviceCall.destroyBuffer BufId.color1,
        DeviceCall.freeMemory (MemId.bufMem BufId.color1) ] ∧
    bufferDropCalls BufId.color2 =
      [ DeviceCall.destroyBuffer BufId.color2,
        DeviceCall.freeMemory (MemId.bufMem BufId.color2) ] ∧
    imageDropCalls.count DeviceCall.destroyImageView = 1 ∧
    imageDropCalls.count (DeviceCall.freeMemory MemId.imageMem) = 1 ∧
    imageDropCalls.count DeviceCall.destroyImage = 1 ∧
    imageDropCalls.count DeviceCall.destroySampler = 1 := by
  decide

/-- The `group_count` local of `create_shader_binding_table`, hard-coded to 3
for the fixed three-group pipeline. -/
def sbtGroupCount : Nat := 3

/-- The table-size computation of `create_shader_binding_table`:
`shader_group_handle_size * group_count` as a `u32` product, then widened to
`u64`. -/
def sbtTableSize (shader_group_handle_size group_count : Nat) : Nat :=
  (shader_group_handle_size * group_count) % 2 ^ 32

/-- Size of the shader-binding-table byte buffer built by
`create_shader_binding_table` for the fixed pipeline. -/
def createShaderBindingTableSize (shader_group_handle_size : Nat) : Nat :=
  sbtTableSize shader_group_handle_size sbtGroupCount

/-- Argument record of the `get_ray_tracing_shader_group_handles` query. -/
structure ShaderGroupHandlesQuery where
  firstGroup : Nat
  groupCount : Nat
  dataLength : Nat
deriving DecidableEq, Repr

/-- The query issued by `create_shader_binding_table`: first group 0, the
fixed group count, and `table_data` of exactly the table size. -/
def createShaderBindingTableQuery (shader_group_handle_size : Nat) : ShaderGroupHandlesQuery :=
  { firstGroup := 0,
    groupCount := sbtGroupCount,
    dataLength := createShaderBindingTableSize shader_group_handle_size }

/-- C8: the shader-binding-table buffer has length
`shader_group_handle_size * group_count` and is populated by querying group
handles starting at group 0; for the fixed three-group pipeline this is
`handle_size * 3`, and for any other group count the same size computation
scales linearly with the group count. -/
theorem c8_sbt_size_scales_with_group_count (hs g : Nat)
    (h3 : hs * 3 < 2 ^ 32) (hg : hs * g < 2 ^ 32) :
    createShaderBindingTableSize hs = hs * 3 ∧
    (createShaderBindingTableQuery hs).firstGroup = 0 ∧
    (createShaderBindingTableQuery hs).groupCount = 3 ∧
    (createShaderBindingTableQuery hs).dataLength = hs * 3 ∧
    sbtTableSize hs g = hs * g := by
  have e3 : createShaderBindingTableSize hs = hs * 3 := by
    rw [createShaderBindingTableSize, sbtTableSize, sbtGroupCount]
    exact Nat.mod_eq_of_lt h3
  refine ⟨e3, rfl, rfl, e3, ?_⟩
  rw [sbtTableSize]
  exact Nat.mod_eq_of_lt hg

/-- Witness for C8 at handle size 16 and the alternative group count 5. -/
theorem c8_sbt_size_scales_with_group_count_witness :
    createShaderBindingTableSize 16 = 16 * 3 ∧
    (createShaderBindingTableQuery 16).firstGroup = 0 ∧
    (createShaderBindingTableQuery 16).groupCount = 3 ∧
    (createShaderBindingTableQuery 16).dataLength = 16 * 3 ∧
    sbtTableSize 16 5 = 16 * 5 :=
  c8_sbt_size_scales_with_group_count 16 5 (by norm_num) (by norm_num)
